import Mathlib

/-!
Shallow embedding of the credential, template-cache, upload and scaffolding
logic of the orbiter CLI.

Conventions of the embedding:
* Timestamps (`created_at`, `fetchedAt`, `now`) are epoch milliseconds as an
  `Int`, the value `Date.getTime()` yields for the stored ISO-8601 strings.
  The source computes `diffInMinutes = diffMs / 60000` (respectively
  `hoursSinceFetch = diffMs / 3600000`) with real division and compares with
  `> 55` (respectively `> 24`); over integer milliseconds these tests are
  exactly `diffMs > 3300000` and `diffMs > 86400000`.
* The on-disk credential file is modelled by `Option FileContent`: `none`
  when the file does not exist, `some (.json t)` when its text parses to the
  record `t`, and `some .malformed` when `JSON.parse` throws.
* Upstream effects (the auth provider's `refreshSession`, the API-key
  validation request, git clone / raw download, the upload-key request) are
  modelled by outcome parameters, and each function returns, besides its
  result, the trace of upstream calls it performed.
-/

namespace Orbiter

/-- key_type of a stored credential: `"oauth" | "apikey"` in the source. -/
inductive KeyType where
  | oauth
  | apikey
deriving DecidableEq, Repr

/-- The TokenData record of the auth module (`created_at` as epoch ms). -/
structure TokenData where
  access_token : String
  refresh_token : Option String
  created_at : Int
  keyType : KeyType
deriving DecidableEq, Repr

/-- What reading and JSON-parsing the credential file can yield: a parsed
record, or a parse error (`JSON.parse` throws). -/
inductive FileContent where
  | json (t : TokenData)
  | malformed
deriving DecidableEq, Repr

/-- The ambient state of the auth module: the `ORBITER_API_KEY` environment
variable and the credential file (`none` when the file does not exist). -/
structure AuthState where
  env : Option String
  file : Option FileContent
deriving DecidableEq, Repr

/-- JavaScript truthiness of `process.env[ORBITER_API_KEY]`: an `undefined`
variable and the empty string are falsy, every other string is truthy. -/
def envTruthy : Option String → Bool
  | none => false
  | some s => s != ""

/-- Embeds `getStoredTokens`: `undefined` when the file does not exist, the
parsed record otherwise, and `undefined` again when reading or parsing throws
(the `catch` branch). -/
def getStoredTokens : Option FileContent → Option TokenData
  | some (.json t) => some t
  | _ => none

/-- Embeds `isTokenExpired`: API keys never expire; an OAuth record is expired
when strictly more than 55 minutes (3300000 ms) old. -/
def isTokenExpired (now : Int) (t : TokenData) : Bool :=
  match t.keyType with
  | .apikey => false
  | .oauth => decide (now - t.created_at > 55 * 60 * 1000)

/-- Possible outcomes of the one `supabase.auth.refreshSession` call made by
`refreshToken`: provider error, missing session in the response, a thrown
exception, or a fresh access/refresh token pair. -/
inductive RefreshOutcome where
  | err
  | noSession
  | threw
  | ok (access refresh : String)
deriving DecidableEq, Repr

/-- Embeds `storeTokens`: overwrites the credential file with a record stamped
`created_at = now`. -/
def storeTokens (now : Int) (accessToken : String) (refreshTok : Option String)
    (keyType : KeyType) (st : AuthState) : AuthState :=
  { st with file := some (.json
      { access_token := accessToken, refresh_token := refreshTok,
        created_at := now, keyType := keyType }) }

/-- Embeds `refreshToken`. Returns the resulting record (or `none`), the new
ambient state, and the trace of `refreshSession` calls made, each recorded as
the refresh token passed to it. -/
def refreshToken (now : Int) (st : AuthState) (u : RefreshOutcome) :
    Option TokenData × AuthState × List (Option String) :=
  match getStoredTokens st.file with
  | none => (none, st, [])
  | some stored =>
    if isTokenExpired now stored then
      match u with
      | .err => (none, st, [stored.refresh_token])
      | .noSession => (none, st, [stored.refresh_token])
      | .threw => (none, st, [stored.refresh_token])
      | .ok a r =>
        (some { access_token := a, refresh_token := some r,
                created_at := now, keyType := .oauth },
         storeTokens now a (some r) .oauth st,
         [stored.refresh_token])
    else
      (some stored, st, [])

/-- Embeds `getValidTokens`: a truthy `ORBITER_API_KEY` short-circuits to an
apikey record; otherwise the stored record is returned as-is unless it is an
expired OAuth record, in which case `refreshToken` is delegated to. -/
def getValidTokens (now : Int) (st : AuthState) (u : RefreshOutcome) :
    Option TokenData × AuthState × List (Option String) :=
  if envTruthy st.env then
    (some { access_token := st.env.getD "", refresh_token := none,
            created_at := now, keyType := .apikey }, st, [])
  else
    match getStoredTokens st.file with
    | none => (none, st, [])
    | some stored =>
      if stored.keyType = KeyType.apikey then
        (some stored, st, [])
      else if isTokenExpired now stored then
        refreshToken now st u
      else
        (some stored, st, [])

/-- Outcome of the API-key validation request in `authenticateWithApiKey`:
`testResponse.ok`, a non-success status, or a thrown fetch error. -/
inductive KeyCheck where
  | success
  | failure
  | threw
deriving DecidableEq, Repr

/-- The message `authenticateWithApiKey` reports on each of its paths. -/
inductive AuthMsg where
  | stored
  | invalidKey
  | errorStoring
deriving DecidableEq, Repr

/-- Embeds `authenticateWithApiKey` for a resolved key (provided by flag or
prompt): on a success status the record is written; on a non-success status
"Invalid API key" is reported and nothing is written; when the request throws,
the catch branch reports an error and nothing is written. -/
def authenticateWithApiKey (now : Int) (apiKey : String) (check : KeyCheck)
    (st : AuthState) : AuthState × AuthMsg :=
  match check with
  | .threw => (st, .errorStoring)
  | .failure => (st, .invalidKey)
  | .success =>
    ({ st with file := some (.json
        { access_token := apiKey, refresh_token := none,
          created_at := now, keyType := .apikey }) }, .stored)

/-- What reading and JSON-parsing the template cache's sidecar metadata file
can yield: a parsed `fetchedAt` timestamp (epoch ms), or a parse error. -/
inductive MetaContent where
  | json (fetchedAt : Int)
  | malformed
deriving DecidableEq, Repr

/-- The cache directory state `fetchTemplate` inspects for one template:
whether the template directory exists and the sidecar metadata file
(`none` when `.cache-meta.json` is absent). -/
structure TemplateCache where
  dirExists : Bool
  meta : Option MetaContent
deriving DecidableEq, Repr

/-- Embeds `isCacheStale`: stale when the metadata is more than 24 hours
(86400000 ms) old, and stale whenever reading or parsing it throws (the
catch branch returns `true`). -/
def isCacheStale (now : Int) (meta : Option MetaContent) : Bool :=
  match meta with
  | some (.json fetchedAt) => decide (now - fetchedAt > 24 * 60 * 60 * 1000)
  | _ => true

/-- Embeds the `needsFetch` condition of `fetchTemplate`: directory missing,
sidecar metadata file missing, or stale metadata. -/
def needsFetch (now : Int) (c : TemplateCache) : Bool :=
  !c.dirExists || c.meta.isNone || isCacheStale now c.meta

/-- Outcome of the download attempts `fetchTemplate` can make: the shallow
git clone succeeds, the clone fails and the raw-file fallback succeeds, or
both fail. -/
inductive FetchOutcome where
  | cloneOk
  | cloneFailDownloadOk
  | bothFail
deriving DecidableEq, Repr

/-- Embeds `fetchTemplate`: returns `some` of the final cache state (the
cached template path is returned in the source) together with the number of
network download attempts made, or `none` when the fetch fails. A cache hit
makes no network call and leaves the cache untouched; a fetch rewrites the
sidecar metadata with `fetchedAt = now`. -/
def fetchTemplate (now : Int) (c : TemplateCache) (out : FetchOutcome) :
    Option TemplateCache × Nat :=
  if needsFetch now c then
    match out with
    | .cloneOk => (some { dirExists := true, meta := some (.json now) }, 1)
    | .cloneFailDownloadOk => (some { dirExists := true, meta := some (.json now) }, 2)
    | .bothFail => (none, 2)
  else
    (some c, 0)

/-- What `statSync` and the directory listing reveal about the path given to
`uploadSite`: a regular file with its basename, a directory together with
whether it contains a top-level `index.html`, some other kind of node, or a
missing path (`statSync` throws). -/
inductive PathInfo where
  | file (basename : String)
  | dir (hasTopIndex : Bool)
  | other
  | missing
deriving DecidableEq, Repr

/-- Case-insensitive name test of `uploadSite`: JavaScript lowercases the
basename character by character before comparing, embedded here over the
character list (the string-level `toLower` is extensionally the same map). -/
def lowercaseIs (b target : String) : Bool :=
  b.data.map Char.toLower == target.data

/-- Embeds the `hasIndexHtml` computation of `uploadSite`: a single file
passes iff its basename lowercases to `index.html`; a directory passes iff
`index.html` exists at its top level; anything else leaves the flag false. -/
def hasIndexHtml : PathInfo → Bool
  | .file b => lowercaseIs b "index.html"
  | .dir h => h
  | _ => false

/-- The network interactions `uploadSite` can perform, in order: token
refresh calls made while resolving credentials, the supabase session
set/get round trip for OAuth credentials, the upload-key request, and the
upload itself. -/
inductive NetEvent where
  | refreshCall (tok : Option String)
  | sessionCheck
  | uploadKeyRequest
  | uploadCall
deriving DecidableEq, Repr

/-- Result of `uploadSite`: the source returns `{ data: ... }` on success and
`{ error: ... }` otherwise (thrown errors are folded into the error result by
the surrounding catch). -/
inductive UploadResult where
  | success
  | failure (msg : String)
deriving DecidableEq, Repr

/-- Embeds `uploadSite`: resolves credentials (possibly refreshing), checks
for `index.html`, establishes a session for OAuth credentials, requests an
upload key, and uploads. `sessionOk` is the outcome of the session round
trip and `uploadOk` the outcome of the upload phase. Besides the result and
the final ambient state, the ordered trace of network events is returned. -/
def uploadSite (now : Int) (st : AuthState) (u : RefreshOutcome)
    (p : PathInfo) (sessionOk : Bool) (uploadOk : Bool) :
    UploadResult × AuthState × List NetEvent :=
  match getValidTokens now st u with
  | (none, st1, tr) =>
    (.failure "Not authenticated", st1, tr.map NetEvent.refreshCall)
  | (some t, st1, tr) =>
    let authEvents := tr.map NetEvent.refreshCall
    match p with
    | .missing => (.failure "statSync threw", st1, authEvents)
    | _ =>
      if !hasIndexHtml p then
        (.failure "The upload must contain an index.html file", st1, authEvents)
      else
        match t.keyType with
        | .oauth =>
          if sessionOk then
            if uploadOk then
              (.success, st1, authEvents ++ [.sessionCheck, .uploadKeyRequest, .uploadCall])
            else
              (.failure "upload threw", st1, authEvents ++ [.sessionCheck, .uploadKeyRequest, .uploadCall])
          else
            (.failure "No active session found", st1, authEvents ++ [.sessionCheck])
        | .apikey =>
          if uploadOk then
            (.success, st1, authEvents ++ [.uploadKeyRequest, .uploadCall])
          else
            (.failure "upload threw", st1, authEvents ++ [.uploadKeyRequest, .uploadCall])

/-- A node of the template tree read by `copyTemplateFilesRecursive`,
identified by its directory-entry name; file contents are immaterial to the
copied structure (every copied file keeps its name at the target). -/
inductive FsEntry where
  | file (name : String)
  | dir (name : String) (children : List FsEntry)
deriving Repr

/-- The directory-entry name of a node. -/
def FsEntry.name : FsEntry → String
  | .file n => n
  | .dir n _ => n

/-- The two entry names `copyTemplateFilesRecursive` skips at every level. -/
def reserved (n : String) : Bool :=
  n == ".cache-meta.json" || n == "template.json"

/-- Embeds `copyTemplateFilesRecursive` at the level of directory entries:
the loop over `readdirSync` skips the two reserved names before even
statting the entry, recreates directories recursively and copies files. -/
def copyTemplateFilesRecursive : List FsEntry → List FsEntry
  | [] => []
  | .file n :: rest =>
    if reserved n then copyTemplateFilesRecursive rest
    else .file n :: copyTemplateFilesRecursive rest
  | .dir n children :: rest =>
    if reserved n then copyTemplateFilesRecursive rest
    else .dir n (copyTemplateFilesRecursive children) :: copyTemplateFilesRecursive rest

/-- Whether an entry with the given name occurs anywhere in the tree. -/
def containsName (bad : String) : List FsEntry → Bool
  | [] => false
  | .file n :: rest => n == bad || containsName bad rest
  | .dir n ch :: rest => n == bad || containsName bad ch || containsName bad rest

/-- The entry an allowed item is copied to: files are copied by name, a
directory is recreated with its children filtered recursively. -/
def copiedEntry : FsEntry → FsEntry
  | .file n => .file n
  | .dir n children => .dir n (copyTemplateFilesRecursive children)

/-- An OAuth record is expired exactly when it is strictly more than 55
minutes old. -/
theorem isTokenExpired_oauth (now : Int) (t : TokenData)
    (h : t.keyType = .oauth) :
    isTokenExpired now t = decide (now - t.created_at > 55 * 60 * 1000) := by
  unfold isTokenExpired
  rw [h]

/-- With no environment override, `getValidTokens` dispatches on the stored
record. -/
theorem getValidTokens_no_env (now : Int) (st : AuthState) (u : RefreshOutcome)
    (henv : envTruthy st.env = false) :
    getValidTokens now st u =
      match getStoredTokens st.file with
      | none => (none, st, [])
      | some stored =>
        if stored.keyType = KeyType.apikey then
          (some stored, st, [])
        else if isTokenExpired now stored then
          refreshToken now st u
        else
          (some stored, st, []) := by
  unfold getValidTokens
  rw [henv]
  simp

/-- C1 counterexample: an OAuth record exactly 55 minutes old is not treated
as expired: `getValidTokens` returns it unchanged and performs no refresh
call, although the claim says an age of exactly 55 minutes triggers a
refresh. -/
theorem getValidTokens_exact_55_counterexample :
    getValidTokens 3300000
      { env := none, file := some (.json
          { access_token := "a", refresh_token := some "r",
            created_at := 0, keyType := .oauth }) }
      (.ok "x" "y")
    = (some { access_token := "a", refresh_token := some "r",
              created_at := 0, keyType := .oauth },
       { env := none, file := some (.json
          { access_token := "a", refresh_token := some "r",
            created_at := 0, keyType := .oauth }) }, [])
    ∧ (3300000 : Int) - 0 = 55 * 60 * 1000 := by
  exact ⟨by decide, by decide⟩

/-- C1 (amended): with no environment override, a stored OAuth record is
returned unchanged by `getValidTokens` whenever its age is at most 55
minutes (including exactly 55), and it is classified as expired — with
exactly one refresh call, carrying the stored refresh token — whenever its
age is strictly more than 55 minutes. -/
theorem getValidTokens_oauth_threshold (now : Int) (st : AuthState)
    (u : RefreshOutcome) (t : TokenData)
    (henv : envTruthy st.env = false)
    (hfile : getStoredTokens st.file = some t)
    (hkt : t.keyType = .oauth) :
    (now - t.created_at ≤ 55 * 60 * 1000 →
      getValidTokens now st u = (some t, st, [])) ∧
    (now - t.created_at > 55 * 60 * 1000 →
      (getValidTokens now st u).2.2 = [t.refresh_token]) := by
  rw [getValidTokens_no_env now st u henv, hfile]
  have hker : ¬ (t.keyType = KeyType.apikey) := by rw [hkt]; intro hc; cases hc
  dsimp only
  rw [if_neg hker]
  constructor
  · intro hle
    have hexp : isTokenExpired now t = false := by
      rw [isTokenExpired_oauth now t hkt]
      simp only [decide_eq_false_iff_not, not_lt]
      exact hle
    rw [hexp]
    simp
  · intro hgt
    have hexp : isTokenExpired now t = true := by
      rw [isTokenExpired_oauth now t hkt]
      simp only [decide_eq_true_eq]
      exact hgt
    rw [hexp]
    simp only [if_true]
    unfold refreshToken
    rw [hfile]
    dsimp only
    rw [hexp]
    cases u <;> simp

/-- C1 witness: a 56-minute-old OAuth record triggers the refresh path, and
at 54 minutes the record comes back unchanged. -/
theorem getValidTokens_oauth_threshold_witness :
    ((3360000 : Int) - 0 > 55 * 60 * 1000 →
      (getValidTokens 3360000
        { env := none, file := some (.json
            { access_token := "a", refresh_token := some "r",
              created_at := 0, keyType := .oauth }) }
        (.ok "x" "y")).2.2 = [some "r"]) ∧
    envTruthy (none : Option String) = false := by
  refine ⟨?_, by decide⟩
  exact (getValidTokens_oauth_threshold 3360000
    { env := none, file := some (.json
        { access_token := "a", refresh_token := some "r",
          created_at := 0, keyType := .oauth }) }
    (.ok "x" "y")
    { access_token := "a", refresh_token := some "r",
      created_at := 0, keyType := .oauth }
    (by decide) (by decide) (by decide)).2

/-- C2: with no environment override, a stored apikey record is returned
as-is by `getValidTokens`, with no refresh call, regardless of how old its
`created_at` timestamp is (the age does not even enter the apikey path). -/
theorem getValidTokens_apikey_no_refresh (now : Int) (st : AuthState)
    (u : RefreshOutcome) (t : TokenData)
    (henv : envTruthy st.env = false)
    (hfile : getStoredTokens st.file = some t)
    (hkt : t.keyType = .apikey) :
    getValidTokens now st u = (some t, st, []) := by
  rw [getValidTokens_no_env now st u henv, hfile]
  dsimp only
  rw [if_pos hkt]

/-- C2 witness: an apikey record one million minutes old comes back as-is
with an empty refresh trace. -/
theorem getValidTokens_apikey_no_refresh_witness :
    envTruthy (none : Option String) = false ∧
    getStoredTokens (some (.json
      { access_token := "k", refresh_token := none,
        created_at := 0, keyType := .apikey }))
      = some { access_token := "k", refresh_token := none,
               created_at := 0, keyType := .apikey } ∧
    getValidTokens 60000000000
      { env := none, file := some (.json
          { access_token := "k", refresh_token := none,
            created_at := 0, keyType := .apikey }) }
      .err
    = (some { access_token := "k", refresh_token := none,
              created_at := 0, keyType := .apikey },
       { env := none, file := some (.json
          { access_token := "k", refresh_token := none,
            created_at := 0, keyType := .apikey }) }, []) := by
  refine ⟨by decide, by decide, ?_⟩
  exact getValidTokens_apikey_no_refresh 60000000000 _ .err _
    (by decide) (by decide) (by decide)

/-- Helper: on an expired stored record, `getValidTokens` for an OAuth
credential delegates to `refreshToken`. -/
theorem getValidTokens_expired_eq_refresh (now : Int) (st : AuthState)
    (u : RefreshOutcome) (t : TokenData)
    (henv : envTruthy st.env = false)
    (hfile : getStoredTokens st.file = some t)
    (hkt : t.keyType = .oauth)
    (hexp : isTokenExpired now t = true) :
    getValidTokens now st u = refreshToken now st u := by
  rw [getValidTokens_no_env now st u henv, hfile]
  have hker : ¬ (t.keyType = KeyType.apikey) := by rw [hkt]; intro hc; cases hc
  dsimp only
  rw [if_neg hker, hexp]
  simp

/-- Helper: what `refreshToken` does to an expired stored record, by upstream
outcome. -/
theorem refreshToken_expired (now : Int) (st : AuthState)
    (u : RefreshOutcome) (t : TokenData)
    (hfile : getStoredTokens st.file = some t)
    (hexp : isTokenExpired now t = true) :
    refreshToken now st u =
      match u with
      | .ok a r =>
        (some { access_token := a, refresh_token := some r,
                created_at := now, keyType := .oauth },
         storeTokens now a (some r) .oauth st,
         [t.refresh_token])
      | _ => (none, st, [t.refresh_token]) := by
  unfold refreshToken
  rw [hfile]
  dsimp only
  rw [hexp]
  cases u <;> simp

/-- C3 counterexample: an OAuth record whose age is exactly 55 minutes — and
hence 55+ minutes old — triggers no refresh call at all: the record is
returned unchanged with an empty upstream trace. -/
theorem refresh_exact_55_counterexample :
    getValidTokens 3300000
      { env := none, file := some (.json
          { access_token := "old", refresh_token := some "refr",
            created_at := 0, keyType := .oauth }) }
      (.ok "new" "newr")
    = (some { access_token := "old", refresh_token := some "refr",
              created_at := 0, keyType := .oauth },
       { env := none, file := some (.json
          { access_token := "old", refresh_token := some "refr",
            created_at := 0, keyType := .oauth }) }, [])
    ∧ ((3300000 : Int) - 0 ≥ 55 * 60 * 1000) := by
  exact ⟨by decide, by decide⟩

/-- C3 (amended): with no environment override, a stored OAuth record whose
age strictly exceeds 55 minutes causes exactly one session-refresh call with
the stored refresh token; on success the resolver stores and returns a new
OAuth record whose `created_at` (= now) is later than the old one; on
provider error, missing session or thrown exception it returns absence, the
store untouched, with no retry. -/
theorem getValidTokens_expired_oauth_refresh (now : Int) (st : AuthState)
    (u : RefreshOutcome) (t : TokenData)
    (henv : envTruthy st.env = false)
    (hfile : getStoredTokens st.file = some t)
    (hkt : t.keyType = .oauth)
    (hage : now - t.created_at > 55 * 60 * 1000) :
    (getValidTokens now st u).2.2 = [t.refresh_token] ∧
    t.created_at < now ∧
    (∀ a r, u = .ok a r →
      getValidTokens now st u =
        (some { access_token := a, refresh_token := some r,
                created_at := now, keyType := .oauth },
         { env := st.env, file := some (.json
             { access_token := a, refresh_token := some r,
               created_at := now, keyType := .oauth }) },
         [t.refresh_token])) ∧
    ((u = .err ∨ u = .noSession ∨ u = .threw) →
      getValidTokens now st u = (none, st, [t.refresh_token])) := by
  have hexp : isTokenExpired now t = true := by
    rw [isTokenExpired_oauth now t hkt]
    simp only [decide_eq_true_eq]
    exact hage
  rw [getValidTokens_expired_eq_refresh now st u t henv hfile hkt hexp,
    refreshToken_expired now st u t hfile hexp]
  refine ⟨?_, ?_, ?_, ?_⟩
  · cases u <;> simp
  · have : (0 : Int) < now - t.created_at := lt_trans (by norm_num) hage
    omega
  · intro a r hu
    subst hu
    simp [storeTokens]
  · intro hu
    rcases hu with hu | hu | hu <;> subst hu <;> simp

/-- C3 witness: a 56-minute-old OAuth record with a failing upstream refresh
yields absence after exactly one refresh call carrying the stored refresh
token. -/
theorem getValidTokens_expired_oauth_refresh_witness :
    ((3360000 : Int) - 0 > 55 * 60 * 1000) ∧
    ((RefreshOutcome.err = RefreshOutcome.err ∨
        RefreshOutcome.err = RefreshOutcome.noSession ∨
        RefreshOutcome.err = RefreshOutcome.threw) →
      getValidTokens 3360000
        { env := none, file := some (.json
            { access_token := "old", refresh_token := some "refr",
              created_at := 0, keyType := .oauth }) }
        .err
      = (none,
         { env := none, file := some (.json
            { access_token := "old", refresh_token := some "refr",
              created_at := 0, keyType := .oauth }) },
         [some "refr"])) := by
  refine ⟨by decide, ?_⟩
  exact (getValidTokens_expired_oauth_refresh 3360000
    { env := none, file := some (.json
        { access_token := "old", refresh_token := some "refr",
          created_at := 0, keyType := .oauth }) }
    .err
    { access_token := "old", refresh_token := some "refr",
      created_at := 0, keyType := .oauth }
    (by decide) (by decide) (by decide) (by decide)).2.2.2

/-- C4: a truthy `ORBITER_API_KEY` short-circuits `getValidTokens` to an
apikey record carrying the environment value; the on-disk store — whatever
its contents, which the result does not depend on — is neither consulted nor
changed, and no refresh call is made. -/
theorem getValidTokens_env_override (now : Int) (k : String)
    (file : Option FileContent) (u : RefreshOutcome)
    (hk : k ≠ "") :
    getValidTokens now { env := some k, file := file } u =
      (some { access_token := k, refresh_token := none,
              created_at := now, keyType := .apikey },
       { env := some k, file := file }, []) := by
  simp [getValidTokens, envTruthy, hk, Option.getD]

/-- C4 witness: with the environment key set and an expired OAuth record on
disk, the resolver returns the environment key and leaves the file alone. -/
theorem getValidTokens_env_override_witness :
    ("secret" : String) ≠ "" ∧
    getValidTokens 9000000
      { env := some "secret", file := some (.json
          { access_token := "old", refresh_token := some "refr",
            created_at := 0, keyType := .oauth }) }
      (.ok "new" "newr")
    = (some { access_token := "secret", refresh_token := none,
              created_at := 9000000, keyType := .apikey },
       { env := some "secret", file := some (.json
          { access_token := "old", refresh_token := some "refr",
            created_at := 0, keyType := .oauth }) }, []) := by
  refine ⟨by decide, ?_⟩
  exact getValidTokens_env_override 9000000 "secret" _ _ (by decide)

/-- Helper: when no stored record is retrievable, `getValidTokens` either
short-circuits on the environment key or reports absence, touching
nothing. -/
theorem getValidTokens_absent (now : Int) (st : AuthState) (u : RefreshOutcome)
    (hfile : getStoredTokens st.file = none) :
    getValidTokens now st u =
      if envTruthy st.env then
        (some { access_token := st.env.getD "", refresh_token := none,
                created_at := now, keyType := .apikey }, st, [])
      else (none, st, []) := by
  unfold getValidTokens
  rw [hfile]

/-- Helper: `refreshToken` with no retrievable stored record returns absence
and touches nothing. -/
theorem refreshToken_absent (now : Int) (st : AuthState) (u : RefreshOutcome)
    (hfile : getStoredTokens st.file = none) :
    refreshToken now st u = (none, st, []) := by
  unfold refreshToken
  rw [hfile]

/-- C5: a credential file that fails to parse behaves exactly like a missing
file: loading yields absence, the resolver and the refresh operation produce
the same result and the same upstream trace as with no file, and each leaves
its own store untouched; the parse failure is never fatal (`getStoredTokens`
is total and merely returns absence). -/
theorem malformed_tokens_like_absent (now : Int) (env : Option String)
    (u : RefreshOutcome) :
    getStoredTokens (some .malformed) = getStoredTokens none ∧
    (getValidTokens now { env := env, file := some .malformed } u).1 =
      (getValidTokens now { env := env, file := none } u).1 ∧
    (getValidTokens now { env := env, file := some .malformed } u).2.2 =
      (getValidTokens now { env := env, file := none } u).2.2 ∧
    (getValidTokens now { env := env, file := some .malformed } u).2.1 =
      { env := env, file := some .malformed } ∧
    (getValidTokens now { env := env, file := none } u).2.1 =
      { env := env, file := none } ∧
    refreshToken now { env := env, file := some .malformed } u =
      (none, { env := env, file := some .malformed }, []) ∧
    refreshToken now { env := env, file := none } u =
      (none, { env := env, file := none }, []) := by
  have h1 := getValidTokens_absent now { env := env, file := some .malformed } u rfl
  have h2 := getValidTokens_absent now { env := env, file := none } u rfl
  refine ⟨rfl, ?_, ?_, ?_, ?_,
    refreshToken_absent now _ u rfl, refreshToken_absent now _ u rfl⟩
  · rw [h1, h2]
    cases h : envTruthy env <;> simp [h]
  · rw [h1, h2]
    cases h : envTruthy env <;> simp [h]
  · rw [h1]
    cases h : envTruthy env <;> simp [h]
  · rw [h2]
    cases h : envTruthy env <;> simp [h]

/-- C8: `refreshToken` is a no-op on a credential that is not expired — an
apikey record, or an OAuth record at most 55 minutes old: it returns the
stored record unchanged with no upstream call, and since the state is
untouched, calling it again gives the same answer (idempotence). -/
theorem refreshToken_fresh_noop (now : Int) (st : AuthState)
    (u : RefreshOutcome) (t : TokenData)
    (hfile : getStoredTokens st.file = some t)
    (hfresh : t.keyType = .apikey ∨
      (t.keyType = .oauth ∧ now - t.created_at ≤ 55 * 60 * 1000)) :
    refreshToken now st u = (some t, st, []) ∧
    refreshToken now (refreshToken now st u).2.1 u = refreshToken now st u := by
  have hexp : isTokenExpired now t = false := by
    rcases hfresh with h | ⟨h, hage⟩
    · unfold isTokenExpired
      rw [h]
    · rw [isTokenExpired_oauth now t h]
      simp only [decide_eq_false_iff_not, not_lt]
      exact hage
  have h1 : refreshToken now st u = (some t, st, []) := by
    unfold refreshToken
    rw [hfile]
    dsimp only
    rw [hexp]
    simp
  refine ⟨h1, ?_⟩
  rw [h1]
  exact h1

/-- C8 witness: a 30-minute-old OAuth record is returned unchanged by a
direct `refreshToken` call, and calling again changes nothing. -/
theorem refreshToken_fresh_noop_witness :
    (({ access_token := "a", refresh_token := some "r",
        created_at := 0, keyType := .oauth } : TokenData).keyType = .oauth ∧
      (1800000 : Int) - 0 ≤ 55 * 60 * 1000) ∧
    refreshToken 1800000
      { env := none, file := some (.json
          { access_token := "a", refresh_token := some "r",
            created_at := 0, keyType := .oauth }) }
      (.ok "x" "y")
    = (some { access_token := "a", refresh_token := some "r",
              created_at := 0, keyType := .oauth },
       { env := none, file := some (.json
          { access_token := "a", refresh_token := some "r",
            created_at := 0, keyType := .oauth }) }, []) := by
  refine ⟨⟨by decide, by decide⟩, ?_⟩
  exact (refreshToken_fresh_noop 1800000 _ (.ok "x" "y") _
    (by decide) (Or.inr ⟨by decide, by decide⟩)).1

/-- C7: `authenticateWithApiKey` writes a Credential Record — with keyType
apikey and no refresh token, stamped with the current time — exactly when
the validation request returns a success status; a non-success status is
reported as an invalid key with the whole state unchanged, and a thrown
request likewise leaves the store untouched. -/
theorem authenticateWithApiKey_persists_iff_valid (now : Int) (k : String)
    (check : KeyCheck) (st : AuthState) :
    ((authenticateWithApiKey now k check st).1.file =
      if check = KeyCheck.success then
        some (.json { access_token := k, refresh_token := none,
                      created_at := now, keyType := .apikey })
      else st.file) ∧
    ((authenticateWithApiKey now k check st).1.env = st.env) ∧
    ((authenticateWithApiKey now k check st).2 = .stored ↔ check = .success) ∧
    (check = .failure →
      authenticateWithApiKey now k check st = (st, .invalidKey)) := by
  cases check <;> simp [authenticateWithApiKey]

/-- C7 witness: a rejected key against an empty store changes nothing and
reports an invalid key. -/
theorem authenticateWithApiKey_persists_iff_valid_witness :
    ((authenticateWithApiKey 7 "key" .failure { env := none, file := none }).1.file =
      if KeyCheck.failure = KeyCheck.success then
        some (.json { access_token := "key", refresh_token := none,
                      created_at := 7, keyType := .apikey })
      else (AuthState.mk none none).file) ∧
    ((authenticateWithApiKey 7 "key" .failure { env := none, file := none }).1.env =
      (AuthState.mk none none).env) ∧
    ((authenticateWithApiKey 7 "key" .failure { env := none, file := none }).2 = .stored ↔
      KeyCheck.failure = .success) ∧
    (KeyCheck.failure = KeyCheck.failure →
      authenticateWithApiKey 7 "key" .failure { env := none, file := none } =
        ({ env := none, file := none }, .invalidKey)) :=
  authenticateWithApiKey_persists_iff_valid 7 "key" .failure { env := none, file := none }

/-- The `needsFetch` test of `fetchTemplate` holds exactly when the template
directory is missing, the sidecar metadata is missing or unparseable, or the
recorded `fetchedAt` lies more than 24 hours in the past. -/
theorem needsFetch_iff (now : Int) (c : TemplateCache) :
    needsFetch now c = true ↔
      (c.dirExists = false ∨ c.meta = none ∨ c.meta = some .malformed ∨
        (∃ f, c.meta = some (.json f) ∧ now - f > 24 * 60 * 60 * 1000)) := by
  obtain ⟨d, m⟩ := c
  rcases m with _ | mc
  · cases d <;> simp [needsFetch, isCacheStale]
  · cases mc with
    | json f => cases d <;> simp [needsFetch, isCacheStale]
    | malformed => cases d <;> simp [needsFetch, isCacheStale]

/-- C6: `fetchTemplate` performs at least one network download exactly when
the cached template directory is missing, the sidecar metadata is missing or
unparseable, or its `fetchedAt` lies more than 24 hours (86400000 ms) in the
past; in every other case it returns the cached copy untouched and makes no
network call. -/
theorem fetchTemplate_cache_policy (now : Int) (c : TemplateCache)
    (out : FetchOutcome) :
    ((fetchTemplate now c out).2 ≠ 0 ↔
      (c.dirExists = false ∨ c.meta = none ∨ c.meta = some .malformed ∨
        (∃ f, c.meta = some (.json f) ∧ now - f > 24 * 60 * 60 * 1000))) ∧
    (¬ (c.dirExists = false ∨ c.meta = none ∨ c.meta = some .malformed ∨
        (∃ f, c.meta = some (.json f) ∧ now - f > 24 * 60 * 60 * 1000)) →
      fetchTemplate now c out = (some c, 0)) := by
  have hiff := needsFetch_iff now c
  by_cases h : needsFetch now c = true
  · have hfetch : fetchTemplate now c out =
        match out with
        | .cloneOk => (some { dirExists := true, meta := some (.json now) }, 1)
        | .cloneFailDownloadOk =>
          (some { dirExists := true, meta := some (.json now) }, 2)
        | .bothFail => (none, 2) := by
      unfold fetchTemplate
      rw [if_pos h]
    refine ⟨⟨fun _ => hiff.mp h, fun _ => ?_⟩, fun hn => absurd (hiff.mp h) hn⟩
    rw [hfetch]
    cases out <;> simp
  · have hfetch : fetchTemplate now c out = (some c, 0) := by
      unfold fetchTemplate
      rw [if_neg h]
    refine ⟨⟨fun h0 => ?_, fun hr => absurd (hiff.mpr hr) h⟩, fun _ => hfetch⟩
    rw [hfetch] at h0
    exact absurd rfl h0

/-- C6 witness: a cached template fetched one hour ago is served from the
cache with zero network calls. -/
theorem fetchTemplate_cache_policy_witness :
    fetchTemplate 3600000 { dirExists := true, meta := some (.json 0) } .cloneOk
      = (some { dirExists := true, meta := some (.json 0) }, 0) := by
  apply (fetchTemplate_cache_policy 3600000
    { dirExists := true, meta := some (.json 0) } .cloneOk).2
  rintro (h | h | h | ⟨f, hf, hgt⟩)
  · simp at h
  · simp at h
  · simp at h
  · simp only [Option.some.injEq, MetaContent.json.injEq] at hf
    subst hf
    omega

/-- C9 counterexample: with an expired stored OAuth credential on disk, a
session-refresh network call happens while resolving credentials, before the
index.html check: `uploadSite` on a file not named index.html returns the
index.html error, yet its network trace is nonempty — the check does not run
before all network activity. -/
theorem uploadSite_refresh_before_check_counterexample :
    uploadSite 9000000
      { env := none, file := some (.json
          { access_token := "old", refresh_token := some "refr",
            created_at := 0, keyType := .oauth }) }
      (.ok "new" "newr") (.file "main.html") true true
    = (.failure "The upload must contain an index.html file",
       { env := none, file := some (.json
           { access_token := "new", refresh_token := some "newr",
             created_at := 9000000, keyType := .oauth }) },
       [.refreshCall (some "refr")]) ∧
    hasIndexHtml (.file "main.html") = false := by
  exact ⟨by decide, by decide⟩

/-- C9 (amended): when the given path is a single file whose name does not
lowercase to index.html, or a directory with no top-level index.html,
`uploadSite` performs no upload-key request, no session round trip and no
upload: its network trace consists exactly of the refresh calls made while
resolving credentials, the final state is whatever credential resolution
left, and whenever a credential was resolved the result is the index.html
error (with no credential it is the not-authenticated error instead). -/
theorem uploadSite_missing_index (now : Int) (st : AuthState)
    (u : RefreshOutcome) (p : PathInfo) (sessionOk uploadOk : Bool)
    (hp : (∃ b, p = .file b ∧ lowercaseIs b "index.html" = false) ∨
      p = .dir false) :
    (uploadSite now st u p sessionOk uploadOk).2.2 =
      (getValidTokens now st u).2.2.map NetEvent.refreshCall ∧
    (uploadSite now st u p sessionOk uploadOk).2.1 =
      (getValidTokens now st u).2.1 ∧
    ((getValidTokens now st u).1.isSome = true →
      (uploadSite now st u p sessionOk uploadOk).1 =
        .failure "The upload must contain an index.html file") ∧
    ((getValidTokens now st u).1 = none →
      (uploadSite now st u p sessionOk uploadOk).1 =
        .failure "Not authenticated") := by
  rcases hgv : getValidTokens now st u with ⟨res, st1, tr⟩
  rcases hp with ⟨b, rfl, hb⟩ | rfl
  · unfold uploadSite
    rw [hgv]
    cases res <;> simp [hasIndexHtml, hb]
  · unfold uploadSite
    rw [hgv]
    cases res <;> simp [hasIndexHtml]

/-- C9 witness: with a stored API key and a directory lacking index.html,
`uploadSite` reports the index.html error. -/
theorem uploadSite_missing_index_witness :
    ((∃ b, PathInfo.dir false = PathInfo.file b ∧
        lowercaseIs b "index.html" = false) ∨
      PathInfo.dir false = PathInfo.dir false) ∧
    ((getValidTokens 5
        { env := none, file := some (.json
            { access_token := "k", refresh_token := none,
              created_at := 0, keyType := .apikey }) } .err).1.isSome = true →
      (uploadSite 5
        { env := none, file := some (.json
            { access_token := "k", refresh_token := none,
              created_at := 0, keyType := .apikey }) } .err
        (.dir false) true true).1 =
        .failure "The upload must contain an index.html file") := by
  refine ⟨Or.inr rfl, ?_⟩
  exact (uploadSite_missing_index 5
    { env := none, file := some (.json
        { access_token := "k", refresh_token := none,
          created_at := 0, keyType := .apikey }) } .err
    (.dir false) true true (Or.inr rfl)).2.2.1

/-- Helper: an entry name matching one of the two reserved names never
survives the copy, at any depth. -/
theorem containsName_copy_reserved (bad : String) (hbad : reserved bad = true)
    (items : List FsEntry) :
    containsName bad (copyTemplateFilesRecursive items) = false := by
  induction items using copyTemplateFilesRecursive.induct with
  | case1 => simp [copyTemplateFilesRecursive, containsName]
  | case2 n rest hres ih => simp [copyTemplateFilesRecursive, hres, ih]
  | case3 n rest hres ih =>
    have hnb : (n == bad) = false := by
      cases h : n == bad
      · rfl
      · rw [eq_of_beq h] at hres
        exact absurd hbad hres
    simp [copyTemplateFilesRecursive, hres, containsName, hnb, ih]
  | case4 n children rest hres ih => simp [copyTemplateFilesRecursive, hres, ih]
  | case5 n children rest hres ihc ih =>
    have hnb : (n == bad) = false := by
      cases h : n == bad
      · rfl
      · rw [eq_of_beq h] at hres
        exact absurd hbad hres
    simp [copyTemplateFilesRecursive, hres, containsName, hnb, ihc, ih]

/-- Helper: the copy of a non-empty listing either drops a reserved head or
reproduces it (with its own subtree filtered) in front of the copied rest. -/
theorem copy_cons (e : FsEntry) (rest : List FsEntry) :
    copyTemplateFilesRecursive (e :: rest) =
      if reserved e.name then copyTemplateFilesRecursive rest
      else copiedEntry e :: copyTemplateFilesRecursive rest := by
  cases e <;> simp [copyTemplateFilesRecursive, copiedEntry, FsEntry.name]

/-- C10 (amended): the scaffolding copy reproduces no entry — file or
directory — named .cache-meta.json or template.json at any depth of the
output, and every top-level entry with any other name is reproduced, its own
subtree filtered the same way; files inside a skipped directory disappear
with it. -/
theorem copyTemplate_skips_reserved (items : List FsEntry) :
    containsName ".cache-meta.json" (copyTemplateFilesRecursive items) = false ∧
    containsName "template.json" (copyTemplateFilesRecursive items) = false ∧
    (∀ item ∈ items, reserved item.name = false →
      copiedEntry item ∈ copyTemplateFilesRecursive items) := by
  refine ⟨containsName_copy_reserved ".cache-meta.json" (by decide) items,
    containsName_copy_reserved "template.json" (by decide) items, ?_⟩
  induction items with
  | nil =>
    intro item h
    cases h
  | cons head rest ih =>
    intro item hmem hres
    rw [copy_cons]
    rcases List.mem_cons.mp hmem with rfl | hmem
    · rw [if_neg (by rw [hres]; exact Bool.false_ne_true)]
      exact List.mem_cons_self _ _
    · by_cases h : reserved head.name
      · rw [if_pos h]
        exact ih item hmem hres
      · rw [if_neg h]
        exact List.mem_cons_of_mem _ (ih item hmem hres)

/-- C10 counterexample: a directory named template.json is skipped wholesale
by the copy, so the ordinary file index.html inside it — named neither
.cache-meta.json nor template.json — is not reproduced: the copy of this
one-entry template is empty. -/
theorem copyTemplate_dir_counterexample :
    copyTemplateFilesRecursive [.dir "template.json" [.file "index.html"]] = [] ∧
    containsName "index.html" [.dir "template.json" [.file "index.html"]] = true ∧
    reserved "index.html" = false := by
  refine ⟨?_, ?_, by decide⟩
  · simp [copyTemplateFilesRecursive, reserved]
  · simp [containsName]

/-- C10 witness: in a two-entry template listing, the sidecar file is
dropped and the ordinary file survives the copy. -/
theorem copyTemplate_skips_reserved_witness :
    (FsEntry.file "index.html") ∈ [FsEntry.file ".cache-meta.json",
      FsEntry.file "index.html"] ∧
    reserved (FsEntry.name (.file "index.html")) = false ∧
    copiedEntry (.file "index.html") ∈
      copyTemplateFilesRecursive
        [FsEntry.file ".cache-meta.json", FsEntry.file "index.html"] := by
  refine ⟨by simp, by decide, ?_⟩
  exact (copyTemplate_skips_reserved
    [FsEntry.file ".cache-meta.json", FsEntry.file "index.html"]).2.2
    (.file "index.html") (by simp) (by decide)

end Orbiter
